/-
  Verification of the barangay citizen-services backend core:
  account login lockout (src/models User schema methods + src/routes/auth.js),
  bulk status updates (src/routes/complaints.js, src/routes/services.js),
  and role-scoped list-query construction.

  Times are modelled as natural numbers (milliseconds since epoch, as in
  JavaScript `Date.now()`); documents are Lean structures mirroring the
  Mongoose schemas field by field; the document store is an association list
  from string ids to documents, with `findById` as lookup and `save` as an
  in-place replacement of the document under its id.
-/
import Mathlib

namespace Barangay

/-! ## Account lockout guard (User model, src/models/User.js) -/

/-- Lockout policy constants (`LOCKOUT_CONFIG` in the User model):
`maxAttempts` defaults to 5, `lockoutDuration` to 5 minutes in milliseconds. -/
structure LockoutConfig where
  maxAttempts : Nat
  lockoutDuration : Nat
  deriving Repr, DecidableEq

/-- The user document, mirroring the Mongoose `userSchema` fields relevant to
authentication plus the profile fields needed to state frame conditions.
`loginAttempts` defaults to 0; `lockoutUntil` and `lastFailedLogin` default to
`null` (modelled as `none`). -/
structure User where
  firstName : String
  lastName : String
  email : String
  password : String
  role : String
  avatar : String
  address : String
  phoneNumber : String
  isVerified : Bool
  loginAttempts : Nat
  lockoutUntil : Option Nat
  lastFailedLogin : Option Nat
  deriving Repr, DecidableEq

/-- `userSchema.methods.isLockedOut`: `this.lockoutUntil && this.lockoutUntil > Date.now()`. -/
def isLockedOut (u : User) (now : Nat) : Bool :=
  match u.lockoutUntil with
  | some t => now < t
  | none => false

/-- `userSchema.methods.getRemainingLockoutTime`: `0` when not locked out, else
`Math.ceil((this.lockoutUntil - Date.now()) / 1000)`; for naturals with
`now < t`, the ceiling of `(t - now) / 1000` is `(t - now + 999) / 1000`. -/
def getRemainingLockoutTime (u : User) (now : Nat) : Nat :=
  if isLockedOut u now then
    match u.lockoutUntil with
    | some t => (t - now + 999) / 1000
    | none => 0
  else 0

/-- `userSchema.methods.incrementLoginAttempts`: increment `loginAttempts`,
stamp `lastFailedLogin`, and set `lockoutUntil = now + lockoutDuration` once
the incremented count reaches `maxAttempts`; then `save`. -/
def incrementLoginAttempts (cfg : LockoutConfig) (u : User) (now : Nat) : User :=
  let u1 := { u with loginAttempts := u.loginAttempts + 1, lastFailedLogin := some now }
  if u1.loginAttempts ≥ cfg.maxAttempts then
    { u1 with lockoutUntil := some (now + cfg.lockoutDuration) }
  else u1

/-- `userSchema.methods.resetLoginAttempts`: when `loginAttempts > 0 || lockoutUntil`
is truthy, zero the counter, null out `lockoutUntil` and `lastFailedLogin` and
`save`; otherwise do nothing. The boolean reports whether a save was issued. -/
def resetLoginAttempts (u : User) : User × Bool :=
  if u.loginAttempts > 0 || u.lockoutUntil.isSome then
    ({ u with loginAttempts := 0, lockoutUntil := none, lastFailedLogin := none }, true)
  else (u, false)

/-- Outcome of `POST /api/auth/login` (src/routes/auth.js), abstracting the JSON
bodies: `lockedOut` is the 423 sent when the lock check fires before the
password comparison; `lockedByThisAttempt` is the 423 sent when a failed
attempt just caused a lockout (its `remainingAttempts` field is the literal 0
from the handler); `badCredentials` is the 401 carrying `remainingAttempts`;
`success` is the 200 with the session token. -/
inductive LoginOutcome
  | lockedOut (lockoutUntil : Option Nat) (remainingSeconds : Nat)
  | lockedByThisAttempt (lockoutUntil : Option Nat) (remainingSeconds : Nat)
      (remainingAttempts : Nat)
  | badCredentials (remainingAttempts : Nat)
  | success
  deriving Repr, DecidableEq

/-- The login handler's state logic for a found user (src/routes/auth.js):
check `isLockedOut` first; otherwise compare the password (modelled by the
boolean `passwordMatches`, the result of `user.matchPassword`); on mismatch run
`incrementLoginAttempts`, report `Math.max(0, maxAttempts - loginAttempts)`
(natural subtraction), answering 423 if this attempt locked the account;
on match run `resetLoginAttempts`. Returns the outcome and the persisted user. -/
def login (cfg : LockoutConfig) (u : User) (passwordMatches : Bool) (now : Nat) :
    LoginOutcome × User :=
  if isLockedOut u now then
    (.lockedOut u.lockoutUntil (getRemainingLockoutTime u now), u)
  else if !passwordMatches then
    let u1 := incrementLoginAttempts cfg u now
    let remainingAttempts := cfg.maxAttempts - u1.loginAttempts
    if isLockedOut u1 now then
      (.lockedByThisAttempt u1.lockoutUntil (getRemainingLockoutTime u1 now) 0, u1)
    else
      (.badCredentials remainingAttempts, u1)
  else
    (.success, (resetLoginAttempts u).1)

/-! ## Trackable requests: complaints and service requests -/

/-- Complaint status enum (`complaintSchema.status`). -/
inductive ComplaintStatus
  | pending | inProgress | resolved | closed
  deriving Repr, DecidableEq

/-- The string stored in the database for each complaint status. -/
def complaintStatusToString : ComplaintStatus → String
  | .pending => "pending"
  | .inProgress => "in-progress"
  | .resolved => "resolved"
  | .closed => "closed"

/-- Service request status enum (`serviceRequestSchema.status`). -/
inductive ServiceStatus
  | pending | approved | borrowed | returned | rejected
  deriving Repr, DecidableEq

/-- The string stored in the database for each service request status. -/
def serviceStatusToString : ServiceStatus → String
  | .pending => "pending"
  | .approved => "approved"
  | .borrowed => "borrowed"
  | .returned => "returned"
  | .rejected => "rejected"

/-- One entry of `complaintSchema.history` (`complaintHistorySchema`); the
source field `by` is a Lean keyword and is modelled as `byName`. -/
structure HistoryEntry where
  action : String
  byName : String
  timestamp : Nat
  note : Option String
  deriving Repr, DecidableEq

/-- The complaint document (`complaintSchema`), with the fields the core logic
touches; `createdAt` comes from the schema's `timestamps: true`. -/
structure Complaint where
  userId : String
  title : String
  description : String
  category : String
  status : ComplaintStatus
  priority : String
  history : List HistoryEntry
  createdAt : Nat
  deriving Repr, DecidableEq

/-- The service request document (`serviceRequestSchema`), with the fields the
core logic touches. The schema declares `userId`, `requestType`, `itemName`,
`itemType`, `borrowDate`, `expectedReturnDate`, `timeSlot`, `numberOfPeople`,
`status`, `purpose`, `notes`, `rejectionReason`, `approvalNote` and the
`timestamps` pair — and no history field of any kind. -/
structure ServiceRequest where
  userId : String
  requestType : String
  itemName : String
  itemType : String
  status : ServiceStatus
  purpose : String
  notes : Option String
  rejectionReason : Option String
  approvalNote : Option String
  createdAt : Nat
  deriving Repr, DecidableEq

/-- The `serviceRequestSchema` has no status-history field (unlike
`complaintSchema.history`), so a service request document always carries an
empty status history. -/
def ServiceRequest.statusHistory (_ : ServiceRequest) : List HistoryEntry := []

/-- The authenticated caller (`req.user`), as the route handlers read it. -/
structure Actor where
  id : String
  firstName : String
  lastName : String
  role : String
  deriving Repr, DecidableEq

/-- A notification document created by `Notification.create` in the status
update handlers. -/
structure NotificationDoc where
  userId : String
  title : String
  message : String
  type : String
  deriving Repr, DecidableEq

/-- An audit-log document, as written by `createAuditLog(userId, action,
resource, status, ipAddress)` (src/utils/createAuditLog.js). -/
structure AuditEntry where
  userId : String
  action : String
  resource : String
  status : String
  ipAddress : String
  deriving Repr, DecidableEq

/-- One element of the bulk endpoints' `results` array:
`{id, success, error?}`. -/
structure ItemResult where
  id : String
  success : Bool
  error : Option String
  deriving Repr, DecidableEq

/-- The `{success, updated, failed, results}` body answered by the bulk
endpoints. -/
structure BulkResponse where
  success : Bool
  updated : Nat
  failed : Nat
  results : List ItemResult
  deriving Repr, DecidableEq

/-- Observable side effects of a status update handler, in program order:
notification writes, completion of one per-item attempt, and audit-log
writes. -/
inductive BulkEvent
  | notify (n : NotificationDoc)
  | item (r : ItemResult)
  | audit (e : AuditEntry)
  deriving Repr, DecidableEq

/-- Outcome of a bulk endpoint: a single 400 validation response issued before
the loop, or a 200 with the aggregate body. -/
inductive BulkOutcome
  | validationError (message : String)
  | ok (resp : BulkResponse)
  deriving Repr, DecidableEq

/-- JavaScript truthiness of an optional (trimmed) string: `undefined` and the
empty string are falsy. -/
def falsyStr : Option String → Bool
  | none => true
  | some s => s == ""

/-- `x ? x : d` on an optional string. -/
def strOrElse (x : Option String) (d : String) : String :=
  match x with
  | none => d
  | some s => if s == "" then d else s

/-- The document store for one collection: ids mapped to documents.
`Model.findById` is association-list lookup. -/
def findById : List (String × α) → String → Option α
  | [], _ => none
  | p :: rest, id => if p.1 = id then some p.2 else findById rest id

/-- `document.save()`: replace the document stored under its id, leaving every
other document in place. -/
def saveDoc : List (String × α) → String → α → List (String × α)
  | [], _, _ => []
  | p :: rest, id, v => (if p.1 = id then (id, v) else p) :: saveDoc rest id v

/-! ## Bulk status updates (`POST /api/complaints/bulk-status`,
`POST /api/services/bulk-status`) -/

/-- The owner-notification default messages for complaints
(`statusMessages` in the complaints handlers). -/
def complaintStatusMessage : ComplaintStatus → String
  | .pending => "Your complaint is pending review"
  | .inProgress => "Your complaint is now being addressed"
  | .resolved => "Your complaint has been resolved"
  | .closed => "Your complaint has been closed"

/-- The owner-notification default messages for service requests
(`statusMessages` in the services handlers). -/
def serviceStatusMessage : ServiceStatus → String
  | .pending => "Your service request is pending review"
  | .approved => "Your service request has been approved"
  | .borrowed => "Your service request is now active"
  | .returned => "Your service request has been completed"
  | .rejected => "Your service request has been rejected"

/-- Notification `type` for a complaint status change: `"success"` for
resolved, `"info"` for closed, `"warning"` otherwise. -/
def complaintNotifType (status : ComplaintStatus) : String :=
  if status = .resolved then "success"
  else if status = .closed then "info"
  else "warning"

/-- Notification `type` for a service status change: `"success"` for approved
or returned, `"error"` for rejected, `"info"` otherwise. -/
def serviceNotifType (status : ServiceStatus) : String :=
  if status = .approved ∨ status = .returned then "success"
  else if status = .rejected then "error"
  else "info"

/-- The owner notification written after a complaint status change. -/
def complaintNotification (c : Complaint) (oldStatus status : ComplaintStatus)
    (note : Option String) : NotificationDoc :=
  { userId := c.userId
    title := "Complaint Status Updated"
    message := "Your complaint \"" ++ c.title ++ "\" status changed from "
      ++ complaintStatusToString oldStatus ++ " to "
      ++ complaintStatusToString status ++ ". "
      ++ strOrElse note (complaintStatusMessage status)
    type := complaintNotifType status }

/-- The owner notification written after a service request status change. -/
def serviceNotification (s : ServiceRequest) (oldStatus status : ServiceStatus)
    (note : Option String) : NotificationDoc :=
  { userId := s.userId
    title := "Service Request Status Updated"
    message := "Your " ++ s.requestType.toLower ++ " request \"" ++ s.itemName
      ++ "\" status changed from " ++ serviceStatusToString oldStatus ++ " to "
      ++ serviceStatusToString status ++ ". "
      ++ strOrElse note (serviceStatusMessage status)
    type := serviceNotifType status }

/-- One iteration of the complaints bulk loop: look the complaint up; when
absent record a failed result; otherwise set the status, push exactly one
history entry (its note defaulting to `"Bulk status update"` when the request
note is falsy), save, and notify the owner unless the actor owns the
complaint. -/
def processComplaintItem (actor : Actor) (status : ComplaintStatus)
    (note : Option String) (now : Nat) (store : List (String × Complaint))
    (id : String) : List (String × Complaint) × ItemResult × List BulkEvent :=
  match findById store id with
  | none => (store, ⟨id, false, some "Complaint not found"⟩, [])
  | some c =>
    let oldStatus := c.status
    let entry : HistoryEntry :=
      { action := "Status Updated to " ++ complaintStatusToString status
        byName := actor.firstName ++ " " ++ actor.lastName
        timestamp := now
        note := some (strOrElse note "Bulk status update") }
    let c' := { c with status := status, history := c.history ++ [entry] }
    let store' := saveDoc store id c'
    let notifyEvs : List BulkEvent :=
      if c.userId ≠ actor.id then
        [.notify (complaintNotification c' oldStatus status note)]
      else []
    (store', ⟨id, true, none⟩, notifyEvs ++ [.item ⟨id, true, none⟩])

/-- One iteration of the services bulk loop: look the service request up; when
absent record a failed result; otherwise set the status, store the note in
`rejectionReason` (on rejected) or `approvalNote` (on approved), save, and
notify the owner unless the actor owns the request. No history is written:
the service request schema has none. -/
def processServiceItem (actor : Actor) (status : ServiceStatus)
    (note : Option String) (_now : Nat) (store : List (String × ServiceRequest))
    (id : String) :
    List (String × ServiceRequest) × ItemResult × List BulkEvent :=
  match findById store id with
  | none => (store, ⟨id, false, some "Service request not found"⟩, [])
  | some s =>
    let oldStatus := s.status
    let s' := { s with
      status := status
      rejectionReason := if status = .rejected then note else s.rejectionReason
      approvalNote := if status = .approved then note else s.approvalNote }
    let store' := saveDoc store id s'
    let notifyEvs : List BulkEvent :=
      if s.userId ≠ actor.id then
        [.notify (serviceNotification s' oldStatus status note)]
      else []
    (store', ⟨id, true, none⟩, notifyEvs ++ [.item ⟨id, true, none⟩])

/-- Aggregate state of the bulk loop: final store, per-item results in input
order, the two counters, and the emitted events in program order. -/
structure LoopResult (σ : Type) where
  store : σ
  results : List ItemResult
  successCount : Nat
  failedCount : Nat
  events : List BulkEvent
  deriving Repr

/-- The `for (const id of ids)` loop shared by both bulk handlers: run the
per-item step on each id in order, threading the store, collecting one result
per id and bumping one of the two counters per id. -/
def bulkLoop (step : σ → String → σ × ItemResult × List BulkEvent) :
    σ → List String → LoopResult σ
  | store, [] => ⟨store, [], 0, 0, []⟩
  | store, id :: rest =>
    let s := step store id
    let lr := bulkLoop step s.1 rest
    ⟨lr.store, s.2.1 :: lr.results,
      (if s.2.1.success then lr.successCount + 1 else lr.successCount),
      (if s.2.1.success then lr.failedCount else lr.failedCount + 1),
      s.2.2 ++ lr.events⟩

/-- `POST /api/complaints/bulk-status`: validation demands a non-empty `ids`
array (and an in-enum status, enforced here by the `ComplaintStatus` type);
then the loop runs over every id and a single audit entry summarising
`Updated ${successCount} complaints to ${status}` is written after it; the
response reports `success` iff no item failed. -/
def bulkStatusComplaints (actor : Actor) (ids : List String)
    (status : ComplaintStatus) (note : Option String) (now : Nat) (ip : String)
    (store : List (String × Complaint)) :
    BulkOutcome × List (String × Complaint) × List BulkEvent :=
  if ids.isEmpty then (.validationError "Validation failed", store, [])
  else
    let lr := bulkLoop (processComplaintItem actor status note now) store ids
    let entry : AuditEntry :=
      { userId := actor.id
        action := "BULK_UPDATE_COMPLAINT_STATUS"
        resource := "Updated " ++ toString lr.successCount ++ " complaints to "
          ++ complaintStatusToString status
        status := if lr.successCount > 0 then "success" else "failed"
        ipAddress := ip }
    (.ok ⟨decide (lr.failedCount = 0), lr.successCount, lr.failedCount, lr.results⟩,
      lr.store, lr.events ++ [.audit entry])

/-- `POST /api/services/bulk-status`: validation demands a non-empty `ids`
array (and an in-enum status); a rejection without a truthy note is answered
with a single 400 before any item is touched; otherwise the loop runs and a
single audit entry summarising `Updated ${successCount} service requests to
${status}` is written after it. -/
def bulkStatusServices (actor : Actor) (ids : List String)
    (status : ServiceStatus) (note : Option String) (now : Nat) (ip : String)
    (store : List (String × ServiceRequest)) :
    BulkOutcome × List (String × ServiceRequest) × List BulkEvent :=
  if ids.isEmpty then (.validationError "Validation failed", store, [])
  else if status = .rejected && falsyStr note then
    (.validationError "Rejection reason is required when rejecting requests",
      store, [])
  else
    let lr := bulkLoop (processServiceItem actor status note now) store ids
    let entry : AuditEntry :=
      { userId := actor.id
        action := "BULK_UPDATE_SERVICE_STATUS"
        resource := "Updated " ++ toString lr.successCount
          ++ " service requests to " ++ serviceStatusToString status
        status := if lr.successCount > 0 then "success" else "failed"
        ipAddress := ip }
    (.ok ⟨decide (lr.failedCount = 0), lr.successCount, lr.failedCount, lr.results⟩,
      lr.store, lr.events ++ [.audit entry])

/-! ## Single status updates (`PUT /api/complaints/:id/status`,
`PUT /api/services/:id/status`) -/

/-- Outcome of a single status update: a 400 validation response, a 404, or a
200 with the updated document. -/
inductive UpdateOutcome
  | validationError (message : String)
  | notFound (message : String)
  | ok
  deriving Repr, DecidableEq

/-- `PUT /api/complaints/:id/status`: find the complaint (404 when absent),
set the status, push exactly one history entry carrying the request note as
is, save, write one audit entry, then notify the owner unless the actor owns
the complaint. -/
def updateComplaintStatus (actor : Actor) (id : String)
    (status : ComplaintStatus) (note : Option String) (now : Nat) (ip : String)
    (store : List (String × Complaint)) :
    UpdateOutcome × List (String × Complaint) × List BulkEvent :=
  match findById store id with
  | none => (.notFound "Complaint not found", store, [])
  | some c =>
    let oldStatus := c.status
    let entry : HistoryEntry :=
      { action := "Status Updated to " ++ complaintStatusToString status
        byName := actor.firstName ++ " " ++ actor.lastName
        timestamp := now
        note := note }
    let c' := { c with status := status, history := c.history ++ [entry] }
    let store' := saveDoc store id c'
    let auditEv : BulkEvent := .audit
      { userId := actor.id
        action := "UPDATE_COMPLAINT_STATUS"
        resource := "Complaint #" ++ id
        status := "success"
        ipAddress := ip }
    let notifyEvs : List BulkEvent :=
      if c.userId ≠ actor.id then
        [.notify (complaintNotification c' oldStatus status note)]
      else []
    (.ok, store', auditEv :: notifyEvs)

/-- `PUT /api/services/:id/status`: find the request (404 when absent); a
rejection without a truthy note is answered 400 before the save, leaving the
store unchanged; otherwise set the status and the note annotation, save, write
one audit entry, then notify the owner unless the actor owns the request. -/
def updateServiceStatus (actor : Actor) (id : String) (status : ServiceStatus)
    (note : Option String) (_now : Nat) (ip : String)
    (store : List (String × ServiceRequest)) :
    UpdateOutcome × List (String × ServiceRequest) × List BulkEvent :=
  match findById store id with
  | none => (.notFound "Service request not found", store, [])
  | some s =>
    if status = .rejected && falsyStr note then
      (.validationError "Rejection reason is required when rejecting a request",
        store, [])
    else
      let oldStatus := s.status
      let s' := { s with
        status := status
        rejectionReason := if status = .rejected then note else s.rejectionReason
        approvalNote := if status = .approved then note else s.approvalNote }
      let store' := saveDoc store id s'
      let auditEv : BulkEvent := .audit
        { userId := actor.id
          action := "UPDATE_SERVICE_STATUS"
          resource := "Service #" ++ id
          status := "success"
          ipAddress := ip }
      let notifyEvs : List BulkEvent :=
        if s.userId ≠ actor.id then
          [.notify (serviceNotification s' oldStatus status note)]
        else []
      (.ok, store', auditEv :: notifyEvs)

/-! ## Role-scoped query builders (`GET /api/complaints`, `GET /api/services`) -/

/-- Client-supplied filters for `GET /api/complaints`, raw query-string
values. -/
structure ComplaintFilters where
  status : Option String
  category : Option String
  priority : Option String
  search : Option String
  startDate : Option Nat
  endDate : Option Nat
  deriving Repr, DecidableEq

/-- Client-supplied filters for `GET /api/services`. -/
structure ServiceFilters where
  status : Option String
  type_ : Option String
  search : Option String
  startDate : Option Nat
  endDate : Option Nat
  deriving Repr, DecidableEq

/-- A field filter guarded by `req.query.x && req.query.x !== "all"`: present
only when the value is truthy and not the `"all"` sentinel. -/
def filterVal (x : Option String) : Option String :=
  match x with
  | some s => if s == "" || s == "all" then none else some s
  | none => none

/-- The search filter, guarded only by truthiness (`if (req.query.search)`). -/
def searchVal (x : Option String) : Option String :=
  match x with
  | some s => if s == "" then none else some s
  | none => none

/-- The Mongo predicate the complaints list endpoint builds. -/
structure ComplaintQuery where
  userId : Option String
  status : Option String
  category : Option String
  priority : Option String
  search : Option String
  createdGte : Option Nat
  createdLte : Option Nat
  deriving Repr, DecidableEq

/-- The Mongo predicate the services list endpoint builds. -/
structure ServiceQuery where
  userId : Option String
  status : Option String
  requestType : Option String
  search : Option String
  createdGte : Option Nat
  createdLte : Option Nat
  deriving Repr, DecidableEq

/-- `GET /api/complaints` query construction: residents get
`query.userId = req.user._id`; everyone's optional filters are added
conjunctively. -/
def buildComplaintQuery (user : Actor) (f : ComplaintFilters) : ComplaintQuery :=
  { userId := if user.role = "resident" then some user.id else none
    status := filterVal f.status
    category := filterVal f.category
    priority := filterVal f.priority
    search := searchVal f.search
    createdGte := f.startDate
    createdLte := f.endDate }

/-- `GET /api/services` query construction: residents get
`query.userId = req.user._id`; everyone's optional filters are added
conjunctively. -/
def buildServiceQuery (user : Actor) (f : ServiceFilters) : ServiceQuery :=
  { userId := if user.role = "resident" then some user.id else none
    status := filterVal f.status
    requestType := filterVal f.type_
    search := searchVal f.search
    createdGte := f.startDate
    createdLte := f.endDate }

/-- Whether the first character list is a prefix of the second. -/
def prefixOfChars : List Char → List Char → Bool
  | [], _ => true
  | _ :: _, [] => false
  | a :: as, b :: bs => a == b && prefixOfChars as bs

/-- Whether the first character list occurs contiguously in the second. -/
def infixOfChars : List Char → List Char → Bool
  | pat, [] => pat.isEmpty
  | pat, hay@(_ :: rest) => prefixOfChars pat hay || infixOfChars pat rest

/-- ASCII lower-casing of one character. -/
def lowerChar (c : Char) : Char :=
  if 'A' ≤ c ∧ c ≤ 'Z' then Char.ofNat (c.toNat + 32) else c

/-- Case-insensitive substring match, modelling `new RegExp(pattern, "i")`
applied to a plain (regex-free) pattern. -/
def containsCI (hay pat : String) : Bool :=
  infixOfChars (pat.toList.map lowerChar) (hay.toList.map lowerChar)

/-- Whether a complaint document satisfies the built predicate: every present
field of the query must match, the search case-insensitively against title or
description. -/
def complaintMatches (q : ComplaintQuery) (c : Complaint) : Bool :=
  (match q.userId with | some uid => c.userId == uid | none => true) &&
  (match q.status with | some st => complaintStatusToString c.status == st | none => true) &&
  (match q.category with | some cat => c.category == cat | none => true) &&
  (match q.priority with | some p => c.priority == p | none => true) &&
  (match q.search with | some pat => containsCI c.title pat || containsCI c.description pat | none => true) &&
  (match q.createdGte with | some d => d ≤ c.createdAt | none => true) &&
  (match q.createdLte with | some d => c.createdAt ≤ d | none => true)

/-- Whether a service request document satisfies the built predicate. -/
def serviceMatches (q : ServiceQuery) (s : ServiceRequest) : Bool :=
  (match q.userId with | some uid => s.userId == uid | none => true) &&
  (match q.status with | some st => serviceStatusToString s.status == st | none => true) &&
  (match q.requestType with | some t => s.requestType == t | none => true) &&
  (match q.search with | some pat => containsCI s.itemName pat || containsCI s.purpose pat | none => true) &&
  (match q.createdGte with | some d => d ≤ s.createdAt | none => true) &&
  (match q.createdLte with | some d => s.createdAt ≤ d | none => true)

/-! ## Derived views used in theorem statements -/

/-- The per-item outcome the complaints bulk loop owes each id relative to a
store: success when the id resolves, the not-found failure otherwise. -/
def expectedComplaintResult (store : List (String × Complaint)) (id : String) :
    ItemResult :=
  if (findById store id).isSome then ⟨id, true, none⟩
  else ⟨id, false, some "Complaint not found"⟩

/-- The per-item outcome the services bulk loop owes each id relative to a
store. -/
def expectedServiceResult (store : List (String × ServiceRequest)) (id : String) :
    ItemResult :=
  if (findById store id).isSome then ⟨id, true, none⟩
  else ⟨id, false, some "Service request not found"⟩

/-- The audit entries contained in an event trace, in order. -/
def auditsOf (events : List BulkEvent) : List AuditEntry :=
  events.filterMap fun e =>
    match e with
    | .audit a => some a
    | _ => none

/-- The `updated` count of a bulk outcome (0 for a validation error). -/
def updatedOf : BulkOutcome → Nat
  | .ok r => r.updated
  | .validationError _ => 0

/-- The `failed` count of a bulk outcome (0 for a validation error). -/
def failedOf : BulkOutcome → Nat
  | .ok r => r.failed
  | .validationError _ => 0

/-! ## Fixtures used by concrete witnesses -/

/-- A sample pending service request owned by resident `res1`. -/
def sampleService : ServiceRequest :=
  { userId := "res1", requestType := "Equipment", itemName := "Tent"
    itemType := "Canopy", status := .pending, purpose := "Town fiesta"
    notes := none, rejectionReason := none, approvalNote := none
    createdAt := 100 }

/-- A sample pending complaint owned by resident `res1`. -/
def sampleComplaint : Complaint :=
  { userId := "res1", title := "Noise", description := "Loud karaoke"
    category := "noise", status := .pending, priority := "medium"
    history := [], createdAt := 100 }

/-- A sample resident actor, owner of the sample documents. -/
def sampleResident : Actor :=
  { id := "res1", firstName := "Ana", lastName := "Cruz", role := "resident" }

/-- Sample complaint filters, including the `"all"` sentinel and a search. -/
def sampleComplaintFilters : ComplaintFilters :=
  { status := some "all", category := some "noise", priority := none
    search := some "kara", startDate := some 0, endDate := none }

/-- Sample service filters. -/
def sampleServiceFilters : ServiceFilters :=
  { status := some "pending", type_ := some "all", search := none
    startDate := none, endDate := some 1000 }

/-- A sample resident account with a clean login-attempt record. -/
def sampleUser : User :=
  { firstName := "Ana", lastName := "Cruz", email := "ana@example.com"
    password := "hash", role := "resident", avatar := "av", address := "addr"
    phoneNumber := "555", isVerified := true
    loginAttempts := 0, lockoutUntil := none, lastFailedLogin := none }

/-- A sample staff actor performing the status updates. -/
def sampleActor : Actor :=
  { id := "staff1", firstName := "Jo", lastName := "Reyes", role := "staff" }

/-! ## Account lockout guard: theorems -/

/-- C7: `checkLockStatus` is a pure read (`isLockedOut` and
`getRemainingLockoutTime` take the account and the clock and return only the
answer, mutating nothing): the account is locked exactly when `lockoutUntil`
is present and strictly in the future; while locked the remaining seconds are
`max 0` of the ceiling of `(lockoutUntil - now) / 1000` (which over naturals
is `(lockoutUntil - now + 999) / 1000`), otherwise `0`; and as soon as `now`
reaches `lockoutUntil` the account reports unlocked with no intervening write
to it. -/
theorem checkLockStatus_spec (u : User) (now : Nat) :
    (isLockedOut u now = true ↔ ∃ t, u.lockoutUntil = some t ∧ now < t) ∧
    (∀ t, u.lockoutUntil = some t → now < t →
      getRemainingLockoutTime u now = max 0 ((t - now + 999) / 1000)) ∧
    (isLockedOut u now = false → getRemainingLockoutTime u now = 0) ∧
    (∀ t, u.lockoutUntil = some t → t ≤ now → isLockedOut u now = false) := by
  refine ⟨?_, ?_, ?_, ?_⟩
  · unfold isLockedOut
    cases h : u.lockoutUntil with
    | none => simp
    | some t => simp [h]
  · intro t ht hlt
    unfold getRemainingLockoutTime isLockedOut
    simp [ht, hlt]
  · intro h
    unfold getRemainingLockoutTime
    simp [h]
  · intro t ht hle
    unfold isLockedOut
    simp [ht]
    omega

/-- Witness for C7 at a concrete account: locked with 4 remaining seconds at
time 1000, unlocked at time 6000. -/
theorem checkLockStatus_spec_witness :
    isLockedOut { sampleUser with lockoutUntil := some 5000 } 1000 = true ∧
    getRemainingLockoutTime { sampleUser with lockoutUntil := some 5000 } 1000 = 4 ∧
    isLockedOut { sampleUser with lockoutUntil := some 5000 } 6000 = false := by
  obtain ⟨h1, h2, _, h4⟩ :=
    checkLockStatus_spec { sampleUser with lockoutUntil := some 5000 } 1000
  obtain ⟨_, _, _, h4'⟩ :=
    checkLockStatus_spec { sampleUser with lockoutUntil := some 5000 } 6000
  refine ⟨?_, ?_, ?_⟩
  · exact h1.mpr ⟨5000, rfl, by decide⟩
  · have := h2 5000 rfl (by decide)
    simpa using this
  · exact h4' 5000 rfl (by decide)

/-- C4: while an account is locked, a login attempt — with either a correct or
an incorrect password — is answered by the pre-credential lockout branch: the
outcome is the 423 built from the stored `lockoutUntil`, and the account is
returned untouched (no attempt counter increment, no change to the lockout
window), independently of `passwordMatches`. -/
theorem lockedLogin_rejected_unchanged (cfg : LockoutConfig) (u : User)
    (passwordMatches : Bool) (now : Nat) (h : isLockedOut u now = true) :
    login cfg u passwordMatches now =
      (.lockedOut u.lockoutUntil (getRemainingLockoutTime u now), u) := by
  unfold login
  simp [h]

/-- Witness for C4 at a concrete locked account with a correct password. -/
theorem lockedLogin_rejected_unchanged_witness :
    login ⟨5, 300000⟩ { sampleUser with loginAttempts := 5, lockoutUntil := some 5000 }
        true 1000 =
      (.lockedOut (some 5000) 4,
        { sampleUser with loginAttempts := 5, lockoutUntil := some 5000 }) := by
  have h := lockedLogin_rejected_unchanged ⟨5, 300000⟩
    { sampleUser with loginAttempts := 5, lockoutUntil := some 5000 } true 1000
    (by decide)
  simpa [getRemainingLockoutTime, isLockedOut] using h

/-- C3: a failed attempt increments `loginAttempts` by one and stamps
`lastFailedLogin := now`; when the incremented count reaches `maxAttempts` the
lock is set to `now + lockoutDuration`, otherwise the lock field is untouched.
In the concrete scenario — `maxAttempts = 5`, four prior failures,
`lockoutDuration = 300000` — the fifth failure at time `now` locks until
`now + 300000`, leaves `max 0 (5 - loginAttempts) = 0` remaining attempts, and
the login handler answers with the locked-by-this-attempt response carrying
300 remaining seconds and `remainingAttempts = 0`. -/
theorem recordFailedAttempt_spec (cfg : LockoutConfig) (u : User) (now : Nat) :
    (incrementLoginAttempts cfg u now).loginAttempts = u.loginAttempts + 1 ∧
    (incrementLoginAttempts cfg u now).lastFailedLogin = some now ∧
    (cfg.maxAttempts ≤ u.loginAttempts + 1 →
      (incrementLoginAttempts cfg u now).lockoutUntil =
        some (now + cfg.lockoutDuration)) ∧
    (u.loginAttempts + 1 < cfg.maxAttempts →
      (incrementLoginAttempts cfg u now).lockoutUntil = u.lockoutUntil) ∧
    (u.loginAttempts = 4 → isLockedOut u now = false →
      login ⟨5, 300000⟩ u false now =
        (.lockedByThisAttempt (some (now + 300000)) 300 0,
          incrementLoginAttempts ⟨5, 300000⟩ u now) ∧
      (incrementLoginAttempts ⟨5, 300000⟩ u now).lockoutUntil =
        some (now + 300000) ∧
      5 - (incrementLoginAttempts ⟨5, 300000⟩ u now).loginAttempts = 0) := by
  refine ⟨?_, ?_, ?_, ?_, ?_⟩
  · simp only [incrementLoginAttempts]
    split <;> rfl
  · simp only [incrementLoginAttempts]
    split <;> rfl
  · intro h
    simp only [incrementLoginAttempts]
    split
    · rfl
    · omega
  · intro h
    simp only [incrementLoginAttempts]
    split
    · omega
    · rfl
  · intro h4 hnl
    have hinc : incrementLoginAttempts ⟨5, 300000⟩ u now =
        { u with loginAttempts := 5, lastFailedLogin := some now, lockoutUntil := some (now + 300000) } := by
      simp only [incrementLoginAttempts]
      split
      · simp [h4]
      · omega
    refine ⟨?_, by rw [hinc], by rw [hinc]; simp⟩
    unfold login
    rw [hnl]
    simp only [Bool.not_false, if_true, Bool.false_eq_true, if_false, hinc]
    have hlock : isLockedOut
        { u with loginAttempts := 5, lastFailedLogin := some now, lockoutUntil := some (now + 300000) } now = true := by
      unfold isLockedOut
      simp
    rw [hlock]
    simp [getRemainingLockoutTime, hlock, isLockedOut]

/-- Witness for C3 at a concrete account with four prior failures at time
1000. -/
theorem recordFailedAttempt_spec_witness :
    login ⟨5, 300000⟩ { sampleUser with loginAttempts := 4 } false 1000 =
      (.lockedByThisAttempt (some 301000) 300 0,
        { sampleUser with loginAttempts := 5, lastFailedLogin := some 1000, lockoutUntil := some 301000 }) := by
  obtain ⟨-, -, -, -, h⟩ :=
    recordFailedAttempt_spec ⟨5, 300000⟩ { sampleUser with loginAttempts := 4 } 1000
  obtain ⟨hl, -, -⟩ := h rfl (by decide)
  rw [hl]
  simp [incrementLoginAttempts]

/-- C8: a successful login resets the counter and clears both timestamps
whenever there is anything to clear (and then issues a save), performs no
write at all when the record is already clean, and in all cases leaves every
other account field unchanged. -/
theorem recordSuccessfulLogin_spec (u : User) :
    ((u.loginAttempts > 0 ∨ u.lockoutUntil.isSome) →
      (resetLoginAttempts u).1.loginAttempts = 0 ∧
      (resetLoginAttempts u).1.lockoutUntil = none ∧
      (resetLoginAttempts u).1.lastFailedLogin = none ∧
      (resetLoginAttempts u).2 = true) ∧
    (u.loginAttempts = 0 → u.lockoutUntil = none →
      resetLoginAttempts u = (u, false)) ∧
    (resetLoginAttempts u).1.firstName = u.firstName ∧
    (resetLoginAttempts u).1.lastName = u.lastName ∧
    (resetLoginAttempts u).1.email = u.email ∧
    (resetLoginAttempts u).1.password = u.password ∧
    (resetLoginAttempts u).1.role = u.role ∧
    (resetLoginAttempts u).1.avatar = u.avatar ∧
    (resetLoginAttempts u).1.address = u.address ∧
    (resetLoginAttempts u).1.phoneNumber = u.phoneNumber ∧
    (resetLoginAttempts u).1.isVerified = u.isVerified := by
  unfold resetLoginAttempts
  refine ⟨?_, ?_, ?_⟩
  · intro h
    have hc : (u.loginAttempts > 0 || u.lockoutUntil.isSome) = true := by
      rcases h with h | h
      · simp [h]
      · simp [h]
    simp [hc]
  · intro h1 h2
    simp [h1, h2]
  · split <;> simp

/-- Witness for C8: resetting an account with two failures and a stale lock
clears all three tracking fields and keeps the profile; a clean account is
returned as-is with no save. -/
theorem recordSuccessfulLogin_spec_witness :
    (resetLoginAttempts { sampleUser with loginAttempts := 2, lockoutUntil := some 99 }).1.loginAttempts = 0 ∧
    (resetLoginAttempts { sampleUser with loginAttempts := 2, lockoutUntil := some 99 }).1.email = "ana@example.com" ∧
    resetLoginAttempts sampleUser = (sampleUser, false) := by
  obtain ⟨h1, -, -, -, h3, -⟩ :=
    recordSuccessfulLogin_spec { sampleUser with loginAttempts := 2, lockoutUntil := some 99 }
  obtain ⟨-, h2, -⟩ := recordSuccessfulLogin_spec sampleUser
  exact ⟨(h1 (by simp)).1, h3, h2 rfl rfl⟩

/-! ## Store and bulk-loop lemmas -/

/-- Saving a document never adds or removes ids: lookup success is
unchanged at every key. -/
theorem findById_saveDoc_isSome (store : List (String × α)) (id x : String) (v : α) :
    (findById (saveDoc store id v) x).isSome = (findById store x).isSome := by
  induction store with
  | nil => rfl
  | cons p rest ih =>
    by_cases hp : p.1 = id
    · by_cases hx : p.1 = x
      · simp [findById, saveDoc, hp, hx, hp ▸ hx]
      · have hix : ¬(id = x) := by rw [← hp]; exact hx
        simp [findById, saveDoc, hp, hx, hix, ih]
    · by_cases hx : p.1 = x
      · have hxi : ¬(x = id) := by rw [← hx]; exact hp
        simp [findById, saveDoc, hp, hx, hxi]
      · simp [findById, saveDoc, hp, hx, ih]

/-- Saving a document that was found stores the new value under its id. -/
theorem findById_saveDoc_self (store : List (String × α)) (id : String) (v w : α)
    (h : findById store id = some w) :
    findById (saveDoc store id v) id = some v := by
  induction store with
  | nil => simp [findById] at h
  | cons p rest ih =>
    by_cases hp : p.1 = id
    · simp [saveDoc, findById, hp]
    · simp only [findById, if_neg hp] at h
      simp [saveDoc, findById, hp, ih h]

/-- The bulk loop produces the per-item outcomes of the initial store, in input
order, whenever the step's outcome at an id is a function of the store that is
invariant under the step's own store updates. -/
theorem bulkLoop_results_map {σ : Type}
    (step : σ → String → σ × ItemResult × List BulkEvent)
    (E : σ → String → ItemResult)
    (hstep : ∀ st id, (step st id).2.1 = E st id)
    (hpres : ∀ st id x, E ((step st id).1) x = E st x) :
    ∀ (ids : List String) (store : σ),
      (bulkLoop step store ids).results = ids.map (E store) := by
  intro ids
  induction ids with
  | nil => intro store; rfl
  | cons id rest ih =>
    intro store
    simp only [bulkLoop, List.map]
    rw [hstep, ih]
    exact congrArg _ (List.map_congr_left fun x _ => hpres store id x)

/-- Each id bumps exactly one of the two counters: they add up to the number
of ids. -/
theorem bulkLoop_counts {σ : Type}
    (step : σ → String → σ × ItemResult × List BulkEvent) :
    ∀ (ids : List String) (store : σ),
      (bulkLoop step store ids).successCount
        + (bulkLoop step store ids).failedCount = ids.length := by
  intro ids
  induction ids with
  | nil => intro store; rfl
  | cons id rest ih =>
    intro store
    simp only [bulkLoop, List.length_cons]
    have h := ih (step store id).1
    split <;> omega

/-- The success counter counts the successful results. -/
theorem bulkLoop_successCount {σ : Type}
    (step : σ → String → σ × ItemResult × List BulkEvent) :
    ∀ (ids : List String) (store : σ),
      (bulkLoop step store ids).successCount
        = (bulkLoop step store ids).results.countP (·.success) := by
  intro ids
  induction ids with
  | nil => intro store; rfl
  | cons id rest ih =>
    intro store
    simp only [bulkLoop, List.countP_cons]
    have h := ih (step store id).1
    split <;> rename_i hs <;> simp [hs, h]

/-- The failure counter counts the failed results. -/
theorem bulkLoop_failedCount {σ : Type}
    (step : σ → String → σ × ItemResult × List BulkEvent) :
    ∀ (ids : List String) (store : σ),
      (bulkLoop step store ids).failedCount
        = (bulkLoop step store ids).results.countP (fun r => !r.success) := by
  intro ids
  induction ids with
  | nil => intro store; rfl
  | cons id rest ih =>
    intro store
    simp only [bulkLoop, List.countP_cons]
    have h := ih (step store id).1
    split <;> rename_i hs <;> simp [hs, h]

/-- If no single step emits an audit event, the loop's trace holds none. -/
theorem bulkLoop_no_audit {σ : Type}
    (step : σ → String → σ × ItemResult × List BulkEvent)
    (hstep : ∀ (st : σ) (id : String) (e : AuditEntry),
      BulkEvent.audit e ∉ (step st id).2.2) :
    ∀ (ids : List String) (store : σ) (e : AuditEntry),
      BulkEvent.audit e ∉ (bulkLoop step store ids).events := by
  intro ids
  induction ids with
  | nil => intro store e h; simp [bulkLoop] at h
  | cons id rest ih =>
    intro store e h
    simp only [bulkLoop, List.mem_append] at h
    rcases h with h | h
    · exact hstep store id e h
    · exact ih (step store id).1 e h

/-- The services step answers each id according to whether the initial store
resolves it. -/
theorem processServiceItem_result (a : Actor) (st : ServiceStatus)
    (n : Option String) (now : Nat) (store : List (String × ServiceRequest))
    (id : String) :
    (processServiceItem a st n now store id).2.1 = expectedServiceResult store id := by
  unfold processServiceItem expectedServiceResult
  cases h : findById store id <;> simp [h]

/-- The services step never changes which ids resolve, hence never changes any
id's expected outcome. -/
theorem processServiceItem_pres (a : Actor) (st : ServiceStatus)
    (n : Option String) (now : Nat) (store : List (String × ServiceRequest))
    (id x : String) :
    expectedServiceResult ((processServiceItem a st n now store id).1) x
      = expectedServiceResult store x := by
  unfold processServiceItem
  cases h : findById store id with
  | none => simp [h]
  | some s =>
    simp only [h]
    unfold expectedServiceResult
    rw [findById_saveDoc_isSome]

/-- The services step emits only notification and item events. -/
theorem processServiceItem_no_audit (a : Actor) (st : ServiceStatus)
    (n : Option String) (now : Nat) (store : List (String × ServiceRequest))
    (id : String) (e : AuditEntry) :
    BulkEvent.audit e ∉ (processServiceItem a st n now store id).2.2 := by
  unfold processServiceItem
  cases h : findById store id with
  | none => simp
  | some s =>
    simp only [h]
    intro hmem
    simp only [List.mem_append] at hmem
    rcases hmem with hmem | hmem
    · split at hmem <;> simp_all
    · simp_all

/-- The complaints step answers each id according to whether the initial store
resolves it. -/
theorem processComplaintItem_result (a : Actor) (st : ComplaintStatus)
    (n : Option String) (now : Nat) (store : List (String × Complaint))
    (id : String) :
    (processComplaintItem a st n now store id).2.1
      = expectedComplaintResult store id := by
  unfold processComplaintItem expectedComplaintResult
  cases h : findById store id <;> simp [h]

/-- The complaints step never changes which ids resolve. -/
theorem processComplaintItem_pres (a : Actor) (st : ComplaintStatus)
    (n : Option String) (now : Nat) (store : List (String × Complaint))
    (id x : String) :
    expectedComplaintResult ((processComplaintItem a st n now store id).1) x
      = expectedComplaintResult store x := by
  unfold processComplaintItem
  cases h : findById store id with
  | none => simp [h]
  | some c =>
    simp only [h]
    unfold expectedComplaintResult
    rw [findById_saveDoc_isSome]

/-- The complaints step emits only notification and item events. -/
theorem processComplaintItem_no_audit (a : Actor) (st : ComplaintStatus)
    (n : Option String) (now : Nat) (store : List (String × Complaint))
    (id : String) (e : AuditEntry) :
    BulkEvent.audit e ∉ (processComplaintItem a st n now store id).2.2 := by
  unfold processComplaintItem
  cases h : findById store id with
  | none => simp
  | some c =>
    simp only [h]
    intro hmem
    simp only [List.mem_append] at hmem
    rcases hmem with hmem | hmem
    · split at hmem <;> simp_all
    · simp_all

/-- The expected outcome always carries the id it was asked about. -/
theorem expectedServiceResult_id (store : List (String × ServiceRequest))
    (id : String) : (expectedServiceResult store id).id = id := by
  unfold expectedServiceResult
  split <;> rfl

/-- The expected outcome always carries the id it was asked about. -/
theorem expectedComplaintResult_id (store : List (String × Complaint))
    (id : String) : (expectedComplaintResult store id).id = id := by
  unfold expectedComplaintResult
  split <;> rfl

/-- Successful and failed results partition any result list. -/
theorem countP_success_split (l : List ItemResult) :
    l.countP (·.success) + l.countP (fun r => !r.success) = l.length := by
  induction l with
  | nil => rfl
  | cons r rest ih =>
    simp only [List.countP_cons, List.length_cons]
    cases h : r.success <;> simp [h] <;> omega

/-- A map that fixes every element of a list is the identity on it. -/
theorem list_map_self {α : Type} (l : List α) (f : α → α) (h : ∀ x ∈ l, f x = x) :
    l.map f = l := by
  induction l with
  | nil => rfl
  | cons a t ih =>
    simp only [List.map]
    rw [h a (by simp), ih fun x hx => h x (by simp [hx])]

/-! ## Bulk status updates: theorems -/

/-- C1: for a non-empty id list (and, for services, a note when rejecting),
both bulk endpoints answer 200 with one result per input id in input order —
each id's entry succeeding exactly when the id resolved in the store at the
start and failing with the not-found error otherwise — with
`updated`/`failed` counting the successes and failures, so that
`updated + failed = ids.length` and `success` holds exactly when
`failed = 0`; a missing id fails its own entry while every resolvable id
still succeeds. -/
theorem bulkStatus_per_item_complete (actor : Actor) (ids : List String)
    (sstatus : ServiceStatus) (cstatus : ComplaintStatus) (note : Option String)
    (now : Nat) (ip : String) (sstore : List (String × ServiceRequest))
    (cstore : List (String × Complaint))
    (hids : ids ≠ [])
    (hnote : sstatus = ServiceStatus.rejected → falsyStr note = false) :
    ((bulkStatusServices actor ids sstatus note now ip sstore).1 =
      BulkOutcome.ok
        { success := decide ((ids.map (expectedServiceResult sstore)).countP (fun r => !r.success) = 0)
          updated := (ids.map (expectedServiceResult sstore)).countP (·.success)
          failed := (ids.map (expectedServiceResult sstore)).countP (fun r => !r.success)
          results := ids.map (expectedServiceResult sstore) }) ∧
    ((bulkStatusComplaints actor ids cstatus note now ip cstore).1 =
      BulkOutcome.ok
        { success := decide ((ids.map (expectedComplaintResult cstore)).countP (fun r => !r.success) = 0)
          updated := (ids.map (expectedComplaintResult cstore)).countP (·.success)
          failed := (ids.map (expectedComplaintResult cstore)).countP (fun r => !r.success)
          results := ids.map (expectedComplaintResult cstore) }) ∧
    (∀ resp, (bulkStatusServices actor ids sstatus note now ip sstore).1 =
        BulkOutcome.ok resp →
      resp.results.map (·.id) = ids ∧
      resp.updated + resp.failed = ids.length ∧
      (resp.success = true ↔ resp.failed = 0) ∧
      (∀ id ∈ ids, findById sstore id = none →
        (⟨id, false, some "Service request not found"⟩ : ItemResult) ∈ resp.results) ∧
      (∀ id ∈ ids, (findById sstore id).isSome = true →
        (⟨id, true, none⟩ : ItemResult) ∈ resp.results)) ∧
    (∀ resp, (bulkStatusComplaints actor ids cstatus note now ip cstore).1 =
        BulkOutcome.ok resp →
      resp.results.map (·.id) = ids ∧
      resp.updated + resp.failed = ids.length ∧
      (resp.success = true ↔ resp.failed = 0) ∧
      (∀ id ∈ ids, findById cstore id = none →
        (⟨id, false, some "Complaint not found"⟩ : ItemResult) ∈ resp.results) ∧
      (∀ id ∈ ids, (findById cstore id).isSome = true →
        (⟨id, true, none⟩ : ItemResult) ∈ resp.results)) := by
  have hidsB : ids.isEmpty = false := by
    cases ids with
    | nil => exact absurd rfl hids
    | cons a l => rfl
  have hguard : (decide (sstatus = ServiceStatus.rejected) && falsyStr note) = false := by
    by_cases h : sstatus = ServiceStatus.rejected
    · simp [h, hnote h]
    · simp [h]
  have hmainS : (bulkStatusServices actor ids sstatus note now ip sstore).1 =
      BulkOutcome.ok
        { success := decide ((ids.map (expectedServiceResult sstore)).countP (fun r => !r.success) = 0)
          updated := (ids.map (expectedServiceResult sstore)).countP (·.success)
          failed := (ids.map (expectedServiceResult sstore)).countP (fun r => !r.success)
          results := ids.map (expectedServiceResult sstore) } := by
    unfold bulkStatusServices
    simp only [hidsB, hguard, Bool.false_eq_true, if_false]
    rw [bulkLoop_successCount, bulkLoop_failedCount,
      bulkLoop_results_map (processServiceItem actor sstatus note now)
        expectedServiceResult
        (fun st id => processServiceItem_result actor sstatus note now st id)
        (fun st id x => processServiceItem_pres actor sstatus note now st id x)]
  have hmainC : (bulkStatusComplaints actor ids cstatus note now ip cstore).1 =
      BulkOutcome.ok
        { success := decide ((ids.map (expectedComplaintResult cstore)).countP (fun r => !r.success) = 0)
          updated := (ids.map (expectedComplaintResult cstore)).countP (·.success)
          failed := (ids.map (expectedComplaintResult cstore)).countP (fun r => !r.success)
          results := ids.map (expectedComplaintResult cstore) } := by
    unfold bulkStatusComplaints
    simp only [hidsB, Bool.false_eq_true, if_false]
    rw [bulkLoop_successCount, bulkLoop_failedCount,
      bulkLoop_results_map (processComplaintItem actor cstatus note now)
        expectedComplaintResult
        (fun st id => processComplaintItem_result actor cstatus note now st id)
        (fun st id x => processComplaintItem_pres actor cstatus note now st id x)]
  refine ⟨hmainS, hmainC, ?_, ?_⟩
  · intro resp hresp
    rw [hmainS] at hresp
    injection hresp with h
    subst h
    refine ⟨?_, ?_, ?_, ?_, ?_⟩
    · rw [List.map_map]
      exact list_map_self ids _ fun x _ => expectedServiceResult_id sstore x
    · rw [countP_success_split, List.length_map]
    · simp
    · intro id hid hnone
      exact List.mem_map.mpr ⟨id, hid, by unfold expectedServiceResult; simp [hnone]⟩
    · intro id hid hsome
      exact List.mem_map.mpr ⟨id, hid, by unfold expectedServiceResult; simp [hsome]⟩
  · intro resp hresp
    rw [hmainC] at hresp
    injection hresp with h
    subst h
    refine ⟨?_, ?_, ?_, ?_, ?_⟩
    · rw [List.map_map]
      exact list_map_self ids _ fun x _ => expectedComplaintResult_id cstore x
    · rw [countP_success_split, List.length_map]
    · simp
    · intro id hid hnone
      exact List.mem_map.mpr ⟨id, hid, by unfold expectedComplaintResult; simp [hnone]⟩
    · intro id hid hsome
      exact List.mem_map.mpr ⟨id, hid, by unfold expectedComplaintResult; simp [hsome]⟩

/-- Witness for C1: the spec's concrete scenario — bulk-rejecting
`["a","b","c"]` with note `"bad request"` where `"b"` does not exist yields
`{success: false, updated: 2, failed: 1}` with per-item entries in input
order and a not-found error on `"b"`. -/
theorem bulkStatus_per_item_complete_witness :
    (bulkStatusServices sampleActor ["a", "b", "c"] ServiceStatus.rejected
        (some "bad request") 0 "ip"
        [("a", sampleService), ("c", sampleService)]).1 =
      BulkOutcome.ok
        ⟨false, 2, 1,
          [⟨"a", true, none⟩, ⟨"b", false, some "Service request not found"⟩,
            ⟨"c", true, none⟩]⟩ := by
  have h := (bulkStatus_per_item_complete sampleActor ["a", "b", "c"]
    ServiceStatus.rejected ComplaintStatus.pending (some "bad request") 0 "ip"
    [("a", sampleService), ("c", sampleService)] []
    (by decide) (fun _ => by decide)).1
  rw [h]
  decide

/-- A trace without audit events contributes nothing to `auditsOf`. -/
theorem auditsOf_no_audit (evs : List BulkEvent)
    (h : ∀ e, BulkEvent.audit e ∉ evs) : auditsOf evs = [] := by
  induction evs with
  | nil => rfl
  | cons ev rest ih =>
    cases ev with
    | audit e => exact absurd (List.mem_cons_self _ _) (h e)
    | notify n =>
      simp only [auditsOf, List.filterMap_cons]
      exact ih fun e he => h e (List.mem_cons_of_mem _ he)
    | item r =>
      simp only [auditsOf, List.filterMap_cons]
      exact ih fun e he => h e (List.mem_cons_of_mem _ he)

/-- `auditsOf` distributes over concatenation. -/
theorem auditsOf_append (a b : List BulkEvent) :
    auditsOf (a ++ b) = auditsOf a ++ auditsOf b := by
  unfold auditsOf
  exact List.filterMap_append a b _

/-- C6: a bulk rejection of service requests without a note is refused with a
single validation error before the loop: the store is returned unchanged — no
status write, no history, no notification, no audit entry — and no per-item
results exist. -/
theorem bulkReject_missing_note_failfast (actor : Actor) (ids : List String)
    (now : Nat) (ip : String) (sstore : List (String × ServiceRequest))
    (hids : ids ≠ []) :
    bulkStatusServices actor ids ServiceStatus.rejected none now ip sstore =
      (.validationError "Rejection reason is required when rejecting requests",
        sstore, []) := by
  have hidsB : ids.isEmpty = false := by
    cases ids with
    | nil => exact absurd rfl hids
    | cons a l => rfl
  unfold bulkStatusServices
  simp [hidsB, falsyStr]

/-- Witness for C6 at a concrete one-element batch. -/
theorem bulkReject_missing_note_failfast_witness :
    bulkStatusServices sampleActor ["a"] ServiceStatus.rejected none 0 "ip"
        [("a", sampleService)] =
      (.validationError "Rejection reason is required when rejecting requests",
        [("a", sampleService)], []) :=
  bulkReject_missing_note_failfast sampleActor ["a"] 0 "ip"
    [("a", sampleService)] (by decide)

/-- C9 (amended): each bulk run that reaches the loop emits exactly one audit
entry, ordered after every per-item event; it records the count of succeeded
items and the target status in its resource text, with outcome `"success"`
exactly when at least one item succeeded. The failed count is not part of the
entry. -/
theorem bulkStatus_audit_once_after (actor : Actor) (ids : List String)
    (sstatus : ServiceStatus) (cstatus : ComplaintStatus) (note : Option String)
    (now : Nat) (ip : String) (sstore : List (String × ServiceRequest))
    (cstore : List (String × Complaint))
    (hids : ids ≠ [])
    (hnote : sstatus = ServiceStatus.rejected → falsyStr note = false) :
    (∃ evs, (bulkStatusServices actor ids sstatus note now ip sstore).2.2 =
        evs ++ [BulkEvent.audit
          { userId := actor.id
            action := "BULK_UPDATE_SERVICE_STATUS"
            resource := "Updated "
              ++ toString (updatedOf (bulkStatusServices actor ids sstatus note now ip sstore).1)
              ++ " service requests to " ++ serviceStatusToString sstatus
            status := if 0 < updatedOf (bulkStatusServices actor ids sstatus note now ip sstore).1
              then "success" else "failed"
            ipAddress := ip }] ∧
      (∀ e, BulkEvent.audit e ∉ evs)) ∧
    (∃ evs, (bulkStatusComplaints actor ids cstatus note now ip cstore).2.2 =
        evs ++ [BulkEvent.audit
          { userId := actor.id
            action := "BULK_UPDATE_COMPLAINT_STATUS"
            resource := "Updated "
              ++ toString (updatedOf (bulkStatusComplaints actor ids cstatus note now ip cstore).1)
              ++ " complaints to " ++ complaintStatusToString cstatus
            status := if 0 < updatedOf (bulkStatusComplaints actor ids cstatus note now ip cstore).1
              then "success" else "failed"
            ipAddress := ip }] ∧
      (∀ e, BulkEvent.audit e ∉ evs)) := by
  have hidsB : ids.isEmpty = false := by
    cases ids with
    | nil => exact absurd rfl hids
    | cons a l => rfl
  have hguard : (decide (sstatus = ServiceStatus.rejected) && falsyStr note) = false := by
    by_cases h : sstatus = ServiceStatus.rejected
    · simp [h, hnote h]
    · simp [h]
  constructor
  · unfold bulkStatusServices updatedOf
    simp only [hidsB, hguard, Bool.false_eq_true, if_false]
    exact ⟨_, rfl,
      bulkLoop_no_audit _
        (fun st id e => processServiceItem_no_audit actor sstatus note now st id e)
        ids sstore⟩
  · unfold bulkStatusComplaints updatedOf
    simp only [hidsB, Bool.false_eq_true, if_false]
    exact ⟨_, rfl,
      bulkLoop_no_audit _
        (fun st id e => processComplaintItem_no_audit actor cstatus note now st id e)
        ids cstore⟩

/-- Witness for C9: on a concrete run with one found and one missing id, the
trace carries exactly one audit entry — `Updated 1 service requests to
approved`, outcome `"success"` — and it is the final event. -/
theorem bulkStatus_audit_once_after_witness :
    auditsOf (bulkStatusServices sampleActor ["a", "m1"] ServiceStatus.approved
        none 0 "ip" [("a", sampleService)]).2.2 =
      [{ userId := "staff1", action := "BULK_UPDATE_SERVICE_STATUS"
         resource := "Updated 1 service requests to approved"
         status := "success", ipAddress := "ip" }] ∧
    (bulkStatusServices sampleActor ["a", "m1"] ServiceStatus.approved
        none 0 "ip" [("a", sampleService)]).2.2.getLast? =
      some (BulkEvent.audit
        { userId := "staff1", action := "BULK_UPDATE_SERVICE_STATUS"
          resource := "Updated 1 service requests to approved"
          status := "success", ipAddress := "ip" }) := by
  obtain ⟨evs, heq, hno⟩ := (bulkStatus_audit_once_after sampleActor ["a", "m1"]
    ServiceStatus.approved ComplaintStatus.pending none 0 "ip"
    [("a", sampleService)] [] (by decide) (fun h => nomatch h)).1
  constructor
  · rw [heq, auditsOf_append, auditsOf_no_audit evs hno]
    rfl
  · rw [heq, List.getLast?_concat]
    rfl

/-- C9 counterexample: two runs that differ only in their failed count (1
versus 2 missing ids; the same single success and target status) produce
identical audit entries, so the audit entry does not record the failed
count. -/
theorem bulk_audit_omits_failed_count :
    auditsOf (bulkStatusServices sampleActor ["a", "m1"] ServiceStatus.approved
        none 0 "ip" [("a", sampleService)]).2.2 =
      auditsOf (bulkStatusServices sampleActor ["a", "m1", "m2"]
        ServiceStatus.approved none 0 "ip" [("a", sampleService)]).2.2 ∧
    failedOf (bulkStatusServices sampleActor ["a", "m1"] ServiceStatus.approved
        none 0 "ip" [("a", sampleService)]).1 = 1 ∧
    failedOf (bulkStatusServices sampleActor ["a", "m1", "m2"]
        ServiceStatus.approved none 0 "ip" [("a", sampleService)]).1 = 2 := by
  decide

/-- C10: the update handlers impose no transition graph. For an entity that
exists (and a truthy note, which the rejected target demands), the single and
bulk updates of both kinds succeed for every target in the kind's status enum
whatever the current status of the entity, and afterwards the stored entity's
status equals the target — backward transitions included. -/
theorem status_update_no_transition_graph (actor : Actor) (id : String)
    (c : Complaint) (s : ServiceRequest) (cst : ComplaintStatus)
    (sst : ServiceStatus) (note : Option String) (now : Nat) (ip : String)
    (cstore : List (String × Complaint)) (sstore : List (String × ServiceRequest))
    (hc : findById cstore id = some c) (hs : findById sstore id = some s)
    (hnote : falsyStr note = false) :
    ((updateComplaintStatus actor id cst note now ip cstore).1 = .ok ∧
      (∃ c', findById (updateComplaintStatus actor id cst note now ip cstore).2.1 id
        = some c' ∧ c'.status = cst)) ∧
    ((updateServiceStatus actor id sst note now ip sstore).1 = .ok ∧
      (∃ s', findById (updateServiceStatus actor id sst note now ip sstore).2.1 id
        = some s' ∧ s'.status = sst)) ∧
    ((bulkStatusComplaints actor [id] cst note now ip cstore).1 =
        BulkOutcome.ok ⟨true, 1, 0, [⟨id, true, none⟩]⟩ ∧
      (∃ c', findById (bulkStatusComplaints actor [id] cst note now ip cstore).2.1 id
        = some c' ∧ c'.status = cst)) ∧
    ((bulkStatusServices actor [id] sst note now ip sstore).1 =
        BulkOutcome.ok ⟨true, 1, 0, [⟨id, true, none⟩]⟩ ∧
      (∃ s', findById (bulkStatusServices actor [id] sst note now ip sstore).2.1 id
        = some s' ∧ s'.status = sst)) := by
  have hguard : (decide (sst = ServiceStatus.rejected) && falsyStr note) = false := by
    rw [hnote]
    simp
  refine ⟨?_, ?_, ?_, ?_⟩
  · constructor
    · simp only [updateComplaintStatus, hc]
    · refine ⟨{ c with status := cst, history := c.history ++ [⟨"Status Updated to " ++ complaintStatusToString cst, actor.firstName ++ " " ++ actor.lastName, now, note⟩] }, ?_, rfl⟩
      simp only [updateComplaintStatus, hc]
      exact findById_saveDoc_self cstore id _ c hc
  · constructor
    · simp only [updateServiceStatus, hs, hguard, Bool.false_eq_true, if_false]
    · refine ⟨{ s with status := sst, rejectionReason := if sst = .rejected then note else s.rejectionReason, approvalNote := if sst = .approved then note else s.approvalNote }, ?_, rfl⟩
      simp only [updateServiceStatus, hs, hguard, Bool.false_eq_true, if_false]
      exact findById_saveDoc_self sstore id _ s hs
  · have hstep2 : (processComplaintItem actor cst note now cstore id).2.1
        = ⟨id, true, none⟩ := by
      rw [processComplaintItem_result]
      unfold expectedComplaintResult
      simp [hc]
    constructor
    · unfold bulkStatusComplaints
      simp only [List.isEmpty_cons, Bool.false_eq_true, if_false]
      simp only [bulkLoop, hstep2]
      rfl
    · refine ⟨{ c with status := cst, history := c.history ++ [⟨"Status Updated to " ++ complaintStatusToString cst, actor.firstName ++ " " ++ actor.lastName, now, some (strOrElse note "Bulk status update")⟩] }, ?_, rfl⟩
      unfold bulkStatusComplaints
      simp only [List.isEmpty_cons, Bool.false_eq_true, if_false]
      simp only [bulkLoop]
      simp only [processComplaintItem, hc]
      exact findById_saveDoc_self cstore id _ c hc
  · have hstep2 : (processServiceItem actor sst note now sstore id).2.1
        = ⟨id, true, none⟩ := by
      rw [processServiceItem_result]
      unfold expectedServiceResult
      simp [hs]
    constructor
    · unfold bulkStatusServices
      simp only [List.isEmpty_cons, Bool.false_eq_true, if_false, hguard]
      simp only [bulkLoop, hstep2]
      rfl
    · refine ⟨{ s with status := sst, rejectionReason := if sst = .rejected then note else s.rejectionReason, approvalNote := if sst = .approved then note else s.approvalNote }, ?_, rfl⟩
      unfold bulkStatusServices
      simp only [List.isEmpty_cons, Bool.false_eq_true, if_false, hguard]
      simp only [bulkLoop]
      simp only [processServiceItem, hs]
      exact findById_saveDoc_self sstore id _ s hs

/-- Witness for C10 with backward transitions: a returned service request set
back to pending and a closed complaint set back to in-progress, via the
single-update handlers. -/
theorem status_update_no_transition_graph_witness :
    (updateServiceStatus sampleActor "x" ServiceStatus.pending (some "redo") 0
        "ip" [("x", { sampleService with status := ServiceStatus.returned })]).1
      = UpdateOutcome.ok ∧
    (updateComplaintStatus sampleActor "x" ComplaintStatus.inProgress
        (some "redo") 0 "ip"
        [("x", { sampleComplaint with status := ComplaintStatus.closed })]).1
      = UpdateOutcome.ok := by
  obtain ⟨⟨h1, -⟩, ⟨h2, -⟩, -⟩ := status_update_no_transition_graph sampleActor
    "x" { sampleComplaint with status := ComplaintStatus.closed }
    { sampleService with status := ServiceStatus.returned }
    ComplaintStatus.inProgress ServiceStatus.pending (some "redo") 0 "ip"
    [("x", { sampleComplaint with status := ComplaintStatus.closed })]
    [("x", { sampleService with status := ServiceStatus.returned })]
    (by decide) (by decide) (by decide)
  exact ⟨h2, h1⟩

/-- C5 (amended): complaint status updates — single and bulk — write the new
status and exactly one appended history entry in the same save; service
request status updates write only the status and the note annotation fields in
their save, and no status-history entry exists for them because the
ServiceRequest schema stores none. -/
theorem statusChange_history_contract (actor : Actor) (id : String)
    (c : Complaint) (s : ServiceRequest) (cst : ComplaintStatus)
    (sst : ServiceStatus) (note : Option String) (now : Nat) (ip : String)
    (cstore : List (String × Complaint)) (sstore : List (String × ServiceRequest))
    (hc : findById cstore id = some c) (hs : findById sstore id = some s) :
    findById ((processComplaintItem actor cst note now cstore id).1) id =
      some { c with status := cst, history := c.history ++ [⟨"Status Updated to " ++ complaintStatusToString cst, actor.firstName ++ " " ++ actor.lastName, now, some (strOrElse note "Bulk status update")⟩] } ∧
    findById ((updateComplaintStatus actor id cst note now ip cstore).2.1) id =
      some { c with status := cst, history := c.history ++ [⟨"Status Updated to " ++ complaintStatusToString cst, actor.firstName ++ " " ++ actor.lastName, now, note⟩] } ∧
    findById ((processServiceItem actor sst note now sstore id).1) id =
      some { s with status := sst, rejectionReason := if sst = .rejected then note else s.rejectionReason, approvalNote := if sst = .approved then note else s.approvalNote } ∧
    (falsyStr note = false →
      findById ((updateServiceStatus actor id sst note now ip sstore).2.1) id =
        some { s with status := sst, rejectionReason := if sst = .rejected then note else s.rejectionReason, approvalNote := if sst = .approved then note else s.approvalNote }) ∧
    (∀ x : ServiceRequest, x.statusHistory = []) := by
  refine ⟨?_, ?_, ?_, ?_, fun x => rfl⟩
  · simp only [processComplaintItem, hc]
    exact findById_saveDoc_self cstore id _ c hc
  · simp only [updateComplaintStatus, hc]
    exact findById_saveDoc_self cstore id _ c hc
  · simp only [processServiceItem, hs]
    exact findById_saveDoc_self sstore id _ s hs
  · intro hnote
    have hguard : (decide (sst = ServiceStatus.rejected) && falsyStr note) = false := by
      rw [hnote]
      simp
    simp only [updateServiceStatus, hs, hguard, Bool.false_eq_true, if_false]
    exact findById_saveDoc_self sstore id _ s hs

/-- Witness for C5's amended statement: a concrete bulk complaint update
appends exactly the one expected history entry, and a concrete bulk service
update saves a document that differs only in its status. -/
theorem statusChange_history_contract_witness :
    findById ((processComplaintItem sampleActor ComplaintStatus.resolved none 5
        [("k", sampleComplaint)] "k").1) "k" =
      some { sampleComplaint with status := ComplaintStatus.resolved, history := [⟨"Status Updated to resolved", "Jo Reyes", 5, some "Bulk status update"⟩] } ∧
    findById ((processServiceItem sampleActor ServiceStatus.approved none 5
        [("k", sampleService)] "k").1) "k" =
      some { sampleService with status := ServiceStatus.approved } := by
  obtain ⟨h1, -, h3, -, -⟩ := statusChange_history_contract sampleActor "k"
    sampleComplaint sampleService ComplaintStatus.resolved ServiceStatus.approved
    none 5 "ip" [("k", sampleComplaint)] [("k", sampleService)]
    (by decide) (by decide)
  exact ⟨h1, h3⟩

/-- C5 counterexample: a successful service-request bulk status update changes
the stored status from pending to approved yet appends no status-history
entry — the saved document is the old one with only its status changed, and
its (empty) status history has not grown by one. -/
theorem statusChange_history_cex :
    updatedOf (bulkStatusServices sampleActor ["a"] ServiceStatus.approved none
        0 "ip" [("a", sampleService)]).1 = 1 ∧
    findById (bulkStatusServices sampleActor ["a"] ServiceStatus.approved none
        0 "ip" [("a", sampleService)]).2.1 "a" =
      some { sampleService with status := ServiceStatus.approved } ∧
    sampleService.status = ServiceStatus.pending ∧
    ¬ (({ sampleService with status := ServiceStatus.approved } : ServiceRequest).statusHistory.length
        = sampleService.statusHistory.length + 1) := by
  decide

/-! ## Role-scoped query builder: theorems -/

/-- C2: for a resident the built list predicate always carries
`userId = actor.id` — whatever filters the client supplies — so every matching
document is the resident's own; for any non-resident role (staff, admin) no
ownership constraint is added. -/
theorem roleScopedQuery_ownership (user : Actor) (f : ComplaintFilters)
    (g : ServiceFilters) :
    (user.role = "resident" →
      (buildComplaintQuery user f).userId = some user.id ∧
      (buildServiceQuery user g).userId = some user.id ∧
      (∀ c : Complaint, complaintMatches (buildComplaintQuery user f) c = true →
        c.userId = user.id) ∧
      (∀ s : ServiceRequest, serviceMatches (buildServiceQuery user g) s = true →
        s.userId = user.id)) ∧
    (user.role ≠ "resident" →
      (buildComplaintQuery user f).userId = none ∧
      (buildServiceQuery user g).userId = none) := by
  constructor
  · intro hr
    refine ⟨by simp [buildComplaintQuery, hr], by simp [buildServiceQuery, hr],
      ?_, ?_⟩
    · intro c hm
      unfold complaintMatches buildComplaintQuery at hm
      simp only [hr, if_pos, Bool.and_eq_true] at hm
      exact eq_of_beq hm.1.1.1.1.1.1
    · intro s hm
      unfold serviceMatches buildServiceQuery at hm
      simp only [hr, if_pos, Bool.and_eq_true] at hm
      exact eq_of_beq hm.1.1.1.1.1
  · intro hr
    constructor <;> simp [buildComplaintQuery, buildServiceQuery, hr]

/-- Witness for C2: a resident's query pins ownership even under adversarial
filters, a matching document belongs to the resident, and a staff query
carries no ownership constraint. -/
theorem roleScopedQuery_ownership_witness :
    (buildComplaintQuery sampleResident sampleComplaintFilters).userId = some "res1" ∧
    (buildServiceQuery sampleResident sampleServiceFilters).userId = some "res1" ∧
    sampleComplaint.userId = "res1" ∧
    (buildComplaintQuery sampleActor sampleComplaintFilters).userId = none ∧
    (buildServiceQuery sampleActor sampleServiceFilters).userId = none := by
  obtain ⟨hres, -⟩ := roleScopedQuery_ownership sampleResident
    sampleComplaintFilters sampleServiceFilters
  obtain ⟨h1, h2, h3, -⟩ := hres rfl
  obtain ⟨-, hstaff⟩ := roleScopedQuery_ownership sampleActor
    sampleComplaintFilters sampleServiceFilters
  obtain ⟨h4, h5⟩ := hstaff (by decide)
  exact ⟨h1, h2, h3 sampleComplaint (by decide), h4, h5⟩

end Barangay
